import Mathlib

/-!
Shallow embedding of the authenticating API gateway (src/auth.py,
src/server.py) and proofs about its specified behaviour.

JSON values are modelled by the inductive `Json`; the dynamic semantics of
the Python operations the code performs on decoded JSON (`in`, `len`,
subscripting, `.get`, truthiness, iteration for `list.extend`) are modelled
by total Lean functions returning `Except String _` where the Python
operation can raise.
-/

namespace ChinngsFastApi

/-- JSON values as produced by `response.json()`. Numbers are modelled as
integers, which suffices for every value the code inspects. -/
inductive Json where
  | null : Json
  | bool : Bool → Json
  | num : Int → Json
  | str : String → Json
  | arr : List Json → Json
  | obj : List (String × Json) → Json

instance : Inhabited Json := ⟨Json.null⟩

/-- Lookup of a key in an object member list (first occurrence). -/
def memLookup (key : String) : List (String × Json) → Option Json
  | [] => none
  | (k, v) :: rest => if k = key then some v else memLookup key rest

/-- Python dict lookup `d.get(key)` restricted to objects; `none` when the
JSON value is not an object or the key is absent. -/
def Json.lookup (j : Json) (key : String) : Option Json :=
  match j with
  | .obj members => memLookup key members
  | _ => none

/-- Python truthiness of a JSON value (`if x:`). -/
def Json.truthy : Json → Bool
  | .null => false
  | .bool b => b
  | .num n => decide (n ≠ 0)
  | .str s => decide (s ≠ "")
  | .arr l => !l.isEmpty
  | .obj l => !l.isEmpty

/-- Python `len(x)`: defined for lists, strings and dicts; a `TypeError`
otherwise. -/
def Json.pyLen : Json → Except String Nat
  | .arr l => .ok l.length
  | .str s => .ok s.length
  | .obj l => .ok l.length
  | _ => .error "TypeError: object has no len()"

/-- Python membership test `key in x` for a string key: dict key lookup,
list element equality, substring test on strings; a `TypeError` otherwise. -/
def pyContains (key : String) : Json → Except String Bool
  | .obj members => .ok (members.any (fun m => m.1 = key))
  | .arr l => .ok (l.any (fun x => match x with | .str s => s = key | _ => false))
  | .str s => .ok (decide (key.data <:+: s.data))
  | _ => .error "TypeError: argument is not iterable"

/-- Python subscript `x[key]` with a string key: only a dict supports it
(`KeyError` when absent); every other value raises `TypeError`. -/
def pyGetItemStr (j : Json) (key : String) : Except String Json :=
  match j with
  | .obj members =>
    match memLookup key members with
    | some v => .ok v
    | none => .error "KeyError"
  | _ => .error "TypeError: value is not subscriptable by a string"

/-- Python subscript `x[0]`: first element of a list, first character of a
string; a dict with string keys raises `KeyError`, everything else raises
`TypeError`. -/
def pySubscriptZero : Json → Except String Json
  | .arr (a :: _) => .ok a
  | .arr [] => .error "IndexError"
  | .str s =>
    match s.data with
    | c :: _ => .ok (.str (String.mk [c]))
    | [] => .error "IndexError"
  | .obj _ => .error "KeyError: 0"
  | _ => .error "TypeError: value is not subscriptable"

/-- Python `x.get(key, dflt)`: only a dict has `.get`; anything else raises
`AttributeError`. -/
def pyDictGet (j : Json) (key : String) (dflt : Json) : Except String Json :=
  match j with
  | .obj members => .ok ((memLookup key members).getD dflt)
  | _ => .error "AttributeError: value has no attribute get"

/-- Python `x.get(key)` with the implicit default `None`: only a dict has
`.get`; anything else raises `AttributeError`. -/
def pyDictGetNone (j : Json) (key : String) : Except String Json :=
  match j with
  | .obj members => .ok ((memLookup key members).getD .null)
  | _ => .error "AttributeError: value has no attribute get"

/-- Python iteration as performed by `list.extend(x)`: a list yields its
elements, a string its characters, a dict its keys; other values raise
`TypeError`. -/
def pyIterate : Json → Except String (List Json)
  | .arr l => .ok l
  | .str s => .ok (s.data.map (fun c => .str (String.mk [c])))
  | .obj members => .ok (members.map (fun m => .str m.1))
  | _ => .error "TypeError: value is not iterable"

mutual

/-- Serialization in the style of `json.dumps` (string escaping and layout
elided: the proofs only use that the output is non-empty and
deterministic). -/
def Json.dumps : Json → String
  | .null => "null"
  | .bool b => cond b "true" "false"
  | .num n => toString n
  | .str s => "\"" ++ s ++ "\""
  | .arr l => "[" ++ dumpsArr l ++ "]"
  | .obj l => "\x7b" ++ dumpsObj l ++ "\x7d"

/-- Comma-joined serialization of the elements of a JSON array. -/
def dumpsArr : List Json → String
  | [] => ""
  | [x] => Json.dumps x
  | x :: y :: rest => Json.dumps x ++ ", " ++ dumpsArr (y :: rest)

/-- Comma-joined serialization of the members of a JSON object. -/
def dumpsObj : List (String × Json) → String
  | [] => ""
  | [(k, v)] => "\"" ++ k ++ "\": " ++ Json.dumps v
  | (k, v) :: m :: rest => "\"" ++ k ++ "\": " ++ Json.dumps v ++ ", " ++ dumpsObj (m :: rest)

end

/-- The serialized form of a JSON object is a non-empty string. -/
theorem dumps_obj_ne_empty (l : List (String × Json)) : Json.dumps (.obj l) ≠ "" := by
  simp only [Json.dumps]
  intro h
  have hlen := congrArg String.length h
  simp only [String.length_append] at hlen
  have h1 : ("\x7b" : String).length = 1 := rfl
  have h2 : ("\x7d" : String).length = 1 := rfl
  rw [h1, h2] at hlen
  simp at hlen

/-!
Embedding of src/auth.py: the key cache `get_cloudflare_public_keys` and the
local verifier `verify_cloudflare_jwt`. The network and the crypto library
are oracles passed in as parameters; the control flow is translated from the
source.
-/

/-- Truthiness of an environment-style configuration value
(`os.getenv` returns `None` when unset; the empty string is also falsy). -/
def optTruthy : Option String → Bool
  | none => false
  | some s => decide (s ≠ "")

/-- Outcome of the single outbound certificate fetch: a parsed JSON body on
success, or an exception of type `httpx.RequestError` or
`httpx.HTTPStatusError` (the latter raised by `raise_for_status` on a
non-success status). -/
inductive FetchResult where
  | ok (body : Json)
  | requestError (msg : String)

/-- The network environment a single call to the key cache runs in: whether
DNS resolution of the configured domain succeeds, and what the certificate
fetch would return. -/
structure KeyFetchEnv where
  dnsOk : Bool
  fetch : FetchResult

/-- The module-global `_cf_public_keys` cache: `none` is Python `None`
(never populated), `some v` is a cached JSON value. -/
structure CacheState where
  cf_public_keys : Option Json

/-- The literal `\x7b"keys": []\x7d` the code returns on failure paths. -/
def emptyKeys : Json := .obj [("keys", .arr [])]

/-- Embedding of `get_cloudflare_public_keys` (src/auth.py lines 27 to 57):
returns the JSON key set together with the new cache state. Unconfigured
domain and DNS failure return the empty key set leaving the cache as it was;
a fetch error STORES the empty key set in the cache; a successful fetch
stores the fetched body. -/
def get_cloudflare_public_keys (cfTeamDomain : Option String) (env : KeyFetchEnv)
    (st : CacheState) : Json × CacheState :=
  if ¬ optTruthy cfTeamDomain then (emptyKeys, st)
  else
    match st.cf_public_keys with
    | some cached => (cached, st)
    | none =>
      if ¬ env.dnsOk then (emptyKeys, st)
      else
        match env.fetch with
        | .ok body => (body, ⟨some body⟩)
        | .requestError _ => (emptyKeys, ⟨some emptyKeys⟩)

/-- Outcome of one `jwt.decode(jwt_token, key=..., ...)` attempt against one
key of the set, for the token under verification: `ok iss` is a successful
decode (signature, expiry and audience verified) whose payload carries the
given `iss` claim; `invalidToken` is a raised `jwt.InvalidTokenError`
(caught by the inner handler); `otherError` is any other exception, e.g. a
`jwt.InvalidKeyError` from `RSAAlgorithm.from_jwk` on malformed key
material, which the inner `except jwt.InvalidTokenError` does NOT catch. -/
inductive DecodeOutcome where
  | ok (issClaim : Option String)
  | invalidToken (msg : String)
  | otherError (msg : String)

/-- Embedding of the `for cert_dict in ...` loop of `verify_cloudflare_jwt`:
scan the keys in order; a successful decode with matching issuer returns
`True`; a successful decode with a different issuer or an
`InvalidTokenError` continues with the next key; any other exception
escapes the loop (it is only caught by the outer handler). -/
def scanKeys (decode : Json → DecodeOutcome) (expectedIss : String) :
    List Json → Except String Bool
  | [] => .ok false
  | k :: rest =>
    match decode k with
    | .ok iss =>
      if iss = some expectedIss then .ok true else scanKeys decode expectedIss rest
    | .invalidToken _ => scanKeys decode expectedIss rest
    | .otherError msg => .error msg

/-- Body of the `try` block of `verify_cloudflare_jwt` (src/auth.py lines
66 to 102): obtain the certificates, fail on a falsy `certs.get('keys')`,
then scan the keys. An `.error` value is an exception reaching the outer
`except Exception` handler. -/
def verifyTryBody (cfTeamDomain : Option String) (env : KeyFetchEnv) (st : CacheState)
    (decode : Json → DecodeOutcome) : Except String Bool × CacheState :=
  let fetched := get_cloudflare_public_keys cfTeamDomain env st
  let certs := fetched.1
  match pyDictGetNone certs "keys" with
  | .error e => (.error e, fetched.2)
  | .ok keysVal =>
    if ¬ keysVal.truthy then (.ok false, fetched.2)
    else
      match pyDictGet certs "keys" (.arr []) with
      | .error e => (.error e, fetched.2)
      | .ok keysVal2 =>
        match pyIterate keysVal2 with
        | .error e => (.error e, fetched.2)
        | .ok ks =>
          (scanKeys decode ("https://" ++ cfTeamDomain.getD "") ks, fetched.2)

/-- Embedding of `verify_cloudflare_jwt` (src/auth.py lines 59 to 106).
Returns (result, new cache state, whether key retrieval was attempted).
Missing configuration short-circuits to `False` before any retrieval; any
exception reaching the outer handler yields `False`. -/
def verify_cloudflare_jwt (cfTeamDomain cfAudTag : Option String) (env : KeyFetchEnv)
    (st : CacheState) (decode : Json → DecodeOutcome) : Bool × CacheState × Bool :=
  if ¬ optTruthy cfTeamDomain || ¬ optTruthy cfAudTag then (false, st, false)
  else
    let body := verifyTryBody cfTeamDomain env st decode
    match body.1 with
    | .ok b => (b, body.2, true)
    | .error _ => (false, body.2, true)

/-!
Embedding of the request middleware `authenticate_middleware`
(src/server.py lines 124 to 162) and of the set of names the module
src/auth.py actually defines, against which the statements
`from src.auth import authenticate_workers_jwt` (line 10) and
`from src.auth import verify_workers_jwt` (line 147) are resolved.
-/

/-- Top-level names bound by src/auth.py: its imports, the two
configuration globals, the cache global, and its four functions. -/
def authModuleNames : List String :=
  ["jwt", "httpx", "Optional", "Request", "HTTPException", "wraps", "os", "socket",
   "CF_TEAM_DOMAIN", "CF_AUD_TAG", "_cf_public_keys",
   "test_dns_resolution", "get_cloudflare_public_keys", "verify_cloudflare_jwt",
   "require_cloudflare_auth"]

/-- An inbound HTTP request as the middleware sees it. -/
structure HttpRequest where
  path : String
  authorization : Option String

/-- The static allow-list of src/server.py line 129. -/
def exemptPaths : List String := ["/health", "/", "/docs", "/redoc", "/openapi.json"]

/-- What a call to the (hypothetical) verifier `verify_workers_jwt` would
do on a given token: return normally, raise an `HTTPException`, or raise
some other exception. -/
inductive VerifierOutcome where
  | ok
  | httpExc (status : Nat) (detail : String)
  | otherExc (msg : String)

/-- Result of the middleware on one request: the request is passed to
`call_next`, or an `HTTPException` with a status and detail is raised, or
an `ImportError` for the named symbol escapes (the local import on line 147
stands before the `try` block, so an `ImportError` is caught by nothing in
the middleware). -/
inductive GateResult where
  | passed
  | rejectedHTTP (status : Nat) (detail : String)
  | importFailure (name : String)

/-- Middleware outcome together with whether the verifier was invoked. -/
structure GateOutcome where
  result : GateResult
  verifierInvoked : Bool

/-- Python `s.startswith(pre)`: the characters of `pre` are a prefix of the
characters of `s`. -/
def pyStartsWith (s pre : String) : Bool := pre.data.isPrefixOf s.data

/-- Embedding of `authenticate_middleware` (src/server.py lines 124 to
162), parameterized by the names the auth module defines and by the
behaviour the verifier would have if it resolved. -/
def authenticate_middleware (authNames : List String) (verifier : String → VerifierOutcome)
    (req : HttpRequest) : GateOutcome :=
  if req.path ∈ exemptPaths then ⟨.passed, false⟩
  else
    match req.authorization with
    | none => ⟨.rejectedHTTP 401 "Authorization header with Bearer token required", false⟩
    | some h =>
      if ¬ pyStartsWith h "Bearer " then
        ⟨.rejectedHTTP 401 "Authorization header with Bearer token required", false⟩
      else if "verify_workers_jwt" ∉ authNames then
        ⟨.importFailure "verify_workers_jwt", false⟩
      else
        match verifier (h.replace "Bearer " "") with
        | .ok => ⟨.passed, true⟩
        | .httpExc s d => ⟨.rejectedHTTP s d, true⟩
        | .otherExc _ => ⟨.rejectedHTTP 403 "Authentication failed", true⟩

/-!
Embedding of the tool proxy endpoints `sequentialthinking` (src/server.py
lines 238 to 318) and `server_memory_tool` (lines 321 to 394), and the
aggregating `list_tools` (lines 185 to 235). The outcome of the outbound
HTTP call, including JSON parsing of its body, is an oracle parameter.
-/

/-- Outcome of `client.post` / `client.get` followed by `raise_for_status()`
and `response.json()`: a parsed body, or a `httpx.HTTPStatusError` from a
non-2xx status, or a `httpx.RequestError` (connection, DNS, timeout), or a
`json.JSONDecodeError` from an unparseable 2xx body. -/
inductive HttpOutcome where
  | success (body : Json)
  | httpStatusError (status : Nat) (msg : String)
  | requestError (msg : String)
  | jsonDecodeError (msg : String)

/-- Embedding of the result-extraction block shared by both proxy endpoints
(src/server.py lines 288 to 299 and 364 to 375):
`if "content" in api_response:` then `if content and len(content) > 0:`
then `content[0].get("text", "")`; otherwise fall through to
`json.dumps(api_response, indent=2)`. An `.error` is an exception reaching
the handler's `except Exception`. -/
def extract_result (api_response : Json) : Except String Json :=
  match pyContains "content" api_response with
  | .error e => .error e
  | .ok false => .ok (.str (Json.dumps api_response))
  | .ok true =>
    match pyGetItemStr api_response "content" with
    | .error e => .error e
    | .ok content =>
      if content.truthy then
        match content.pyLen with
        | .error e => .error e
        | .ok n =>
          if n > 0 then
            match pySubscriptZero content with
            | .error e => .error e
            | .ok first =>
              match pyDictGet first "text" (.str "") with
              | .error e => .error e
              | .ok t => .ok t
          else .ok (.str (Json.dumps api_response))
      else .ok (.str (Json.dumps api_response))

/-- What a proxy endpoint produces: a normal return `\x7b"result": ...\x7d`,
or a raised `HTTPException` with a status code and detail string. -/
inductive DispatchResult where
  | ok (result : Json)
  | httpError (status : Nat) (detail : String)

/-- Embedding of the `sequentialthinking` endpoint (src/server.py lines 238
to 318): extraction on success; `httpx.RequestError` maps to 503,
`httpx.HTTPStatusError` forwards the backend status, any other exception
maps to 500 with the causing message. -/
def sequentialthinking (call : HttpOutcome) : DispatchResult :=
  match call with
  | .success body =>
    match extract_result body with
    | .ok r => .ok r
    | .error e => .httpError 500 ("Internal error: " ++ e)
  | .requestError msg =>
    .httpError 503 ("Failed to connect to sequentialthinking service: " ++ msg)
  | .httpStatusError status msg =>
    .httpError status ("Sequentialthinking service error: " ++ msg)
  | .jsonDecodeError msg => .httpError 500 ("Internal error: " ++ msg)

/-- Embedding of the `server_memory_tool` endpoint (src/server.py lines 321
to 394); identical control flow with its own detail strings. -/
def server_memory_tool (call : HttpOutcome) : DispatchResult :=
  match call with
  | .success body =>
    match extract_result body with
    | .ok r => .ok r
    | .error e => .httpError 500 ("Internal error: " ++ e)
  | .requestError msg =>
    .httpError 503 ("Failed to connect to server-memory service: " ++ msg)
  | .httpStatusError status msg =>
    .httpError status ("server-memory service error: " ++ msg)
  | .jsonDecodeError msg => .httpError 500 ("Internal error: " ++ msg)

/-- What the discovery call of one registered backend produces, as seen by
the `list_tools` loop body. -/
inductive BackendOutcome where
  | success (body : Json)
  | requestError (msg : String)
  | httpStatusError (status : Nat) (msg : String)
  | otherError (msg : String)

/-- Embedding of one iteration of the `for service_name, service_config in
INTERNAL_SERVICES.items()` loop of `list_tools` (src/server.py lines 197 to
231): `if "tools" in response_data:` then `all_tools.extend(tools)`; every
exception class is caught and the loop continues with the accumulator
unchanged. -/
def listToolsStep (acc : List Json) (b : BackendOutcome) : List Json :=
  match b with
  | .success body =>
    match pyContains "tools" body with
    | .error _ => acc
    | .ok false => acc
    | .ok true =>
      match pyGetItemStr body "tools" with
      | .error _ => acc
      | .ok tools =>
        match pyIterate tools with
        | .error _ => acc
        | .ok items => acc ++ items
  | .requestError _ => acc
  | .httpStatusError _ _ => acc
  | .otherError _ => acc

/-- Embedding of `list_tools` (src/server.py lines 185 to 235) over the
sequence of backend outcomes, in registry order. -/
def list_tools (backends : List BackendOutcome) : List Json :=
  backends.foldl listToolsStep []

/-!
Strategy B, delegated verification. The functions src/server.py references
(`authenticate_workers_jwt`, `verify_workers_jwt`, `WORKERS_MCP_URL`) are
not defined anywhere under src/, so the delegated verifier itself is
modelled from the spec.
-/

/-- Modelled from the spec: the result of successful verification, a
subject identifier and an optional email attribute (spec section 3,
VerifiedIdentity). The function carrying it, `verify_workers_jwt`, is
missing from src/. -/
structure VerifiedIdentity where
  sub : String
  email : Option String

/-- Modelled from the spec: the delegated verification service's response
as observed by the verifier, `GET <verifier-base>/verify-jwt` returning
`\x7b"valid": bool, "userId"?, "email"?, "error"?\x7d`, or a timeout, or a
connection failure (spec sections 4.3 and 6). -/
inductive VerifierResponse where
  | http (status : Nat) (validFlag : Bool) (userId : Option String)
      (email : Option String) (err : Option String)
  | timeout
  | connectionFailure

/-- Modelled from the spec: the outcome taxonomy of Strategy B verification
(spec sections 4.3 and 7). -/
inductive AuthOutcome where
  | verified (idt : VerifiedIdentity)
  | unauthenticated
  | forbidden (reason : Option String)
  | badGateway
  | gatewayTimeout
  | serverMisconfigured

/-- Modelled from the spec: the HTTP status each outcome is surfaced as
(spec section 7): 401, 403, 502, 504, 500; success is 200. -/
def outcomeStatus : AuthOutcome → Nat
  | .verified _ => 200
  | .unauthenticated => 401
  | .forbidden _ => 403
  | .badGateway => 502
  | .gatewayTimeout => 504
  | .serverMisconfigured => 500

/-- Modelled from the spec: the Strategy B delegated verifier
`verify_workers_jwt`, which is absent from src/ (src/server.py imports it
from src.auth, which does not define it). Spec section 4.3: unconfigured
base URL fails fast with ServerMisconfigured before any call; otherwise a
single outbound call is made and its response is mapped. The boolean
records whether the outbound call was attempted. -/
def verify_workers_jwt (workersMcpUrl : Option String) (resp : VerifierResponse) :
    AuthOutcome × Bool :=
  if ¬ optTruthy workersMcpUrl then (.serverMisconfigured, false)
  else
    match resp with
    | .timeout => (.gatewayTimeout, true)
    | .connectionFailure => (.badGateway, true)
    | .http status valid uid em err =>
      if status = 200 then
        if valid then (.verified ⟨uid.getD "", em⟩, true)
        else (.forbidden err, true)
      else if status = 401 then (.unauthenticated, true)
      else if status = 403 then (.forbidden none, true)
      else (.badGateway, true)

/-!
Theorems about the claims.
-/

/-- Claim C3: for every inbound request whose path is on the static
allow-list (health, root, docs paths), the auth gate passes the request
through to the handler without invoking any verifier, regardless of the
Authorization header. -/
theorem exempt_paths_pass_without_verifier
    (authNames : List String) (verifier : String → VerifierOutcome)
    (req : HttpRequest) (hp : req.path ∈ exemptPaths) :
    authenticate_middleware authNames verifier req = ⟨.passed, false⟩ := by
  unfold authenticate_middleware
  simp [hp]

/-- Witness for C3: the health path with no credential at all is passed. -/
theorem exempt_paths_pass_without_verifier_witness :
    "/health" ∈ exemptPaths ∧
    authenticate_middleware authModuleNames (fun _ => .otherExc "never called")
      ⟨"/health", none⟩ = ⟨.passed, false⟩ :=
  ⟨by simp [exemptPaths],
   exempt_paths_pass_without_verifier authModuleNames (fun _ => .otherExc "never called")
     ⟨"/health", none⟩ (by simp [exemptPaths])⟩

/-- Claim C4: for every request to a non-exempt path whose Authorization
header is absent or does not carry the Bearer prefix, the gate rejects with
HTTP status 401 without invoking any verifier. -/
theorem missing_bearer_rejected_401
    (authNames : List String) (verifier : String → VerifierOutcome)
    (req : HttpRequest) (hp : req.path ∉ exemptPaths)
    (ha : req.authorization = none ∨
      ∃ h, req.authorization = some h ∧ pyStartsWith h "Bearer " = false) :
    authenticate_middleware authNames verifier req =
      ⟨.rejectedHTTP 401 "Authorization header with Bearer token required", false⟩ := by
  unfold authenticate_middleware
  rcases ha with hnone | ⟨h, hsome, hpre⟩
  · simp [hp, hnone]
  · simp [hp, hsome, hpre]

/-- Witness for C4: a request to /list with no Authorization header, and one
with a non-Bearer header, are both rejected with 401. -/
theorem missing_bearer_rejected_401_witness :
    (authenticate_middleware authModuleNames (fun _ => .ok) ⟨"/list", none⟩ =
      ⟨.rejectedHTTP 401 "Authorization header with Bearer token required", false⟩) ∧
    (authenticate_middleware authModuleNames (fun _ => .ok) ⟨"/list", some "Basic abc"⟩ =
      ⟨.rejectedHTTP 401 "Authorization header with Bearer token required", false⟩) :=
  ⟨missing_bearer_rejected_401 authModuleNames (fun _ => .ok) ⟨"/list", none⟩
     (by simp [exemptPaths]) (Or.inl rfl),
   missing_bearer_rejected_401 authModuleNames (fun _ => .ok) ⟨"/list", some "Basic abc"⟩
     (by simp [exemptPaths]) (Or.inr ⟨"Basic abc", rfl, by decide⟩)⟩

/-- Claim C10: the verifier functions src/server.py references,
`authenticate_workers_jwt` (module-level import) and `verify_workers_jwt`
(imported inside the middleware), are not defined in src/auth.py; on every
non-exempt request carrying a Bearer Authorization header the verification
step therefore fails with an ImportError rather than producing a pass
verdict, whatever behaviour the verifier would have had. -/
theorem workers_verifier_unresolvable
    (verifier : String → VerifierOutcome) (req : HttpRequest) (tok : String)
    (hp : req.path ∉ exemptPaths)
    (hh : req.authorization = some tok) (hb : pyStartsWith tok "Bearer " = true) :
    "verify_workers_jwt" ∉ authModuleNames ∧
    "authenticate_workers_jwt" ∉ authModuleNames ∧
    authenticate_middleware authModuleNames verifier req =
      ⟨.importFailure "verify_workers_jwt", false⟩ := by
  refine ⟨by simp [authModuleNames], by simp [authModuleNames], ?_⟩
  unfold authenticate_middleware
  have hn : "verify_workers_jwt" ∉ authModuleNames := by simp [authModuleNames]
  simp [hp, hh, hb, hn]

/-- Witness for C10: a Bearer-carrying request to /list ends in the
unresolvable import of verify_workers_jwt, not in a pass. -/
theorem workers_verifier_unresolvable_witness :
    "verify_workers_jwt" ∉ authModuleNames ∧
    "authenticate_workers_jwt" ∉ authModuleNames ∧
    authenticate_middleware authModuleNames (fun _ => .ok) ⟨"/list", some "Bearer tok"⟩ =
      ⟨.importFailure "verify_workers_jwt", false⟩ :=
  workers_verifier_unresolvable (fun _ => .ok) ⟨"/list", some "Bearer tok"⟩ "Bearer tok"
    (by simp [exemptPaths]) rfl (by decide)

/-- Claim C6: for both proxy endpoints, a connection or DNS failure yields
a 503 ServiceUnavailable, a non-2xx backend status is forwarded with the
backend status code and detail, and any other unexpected exception yields a
500 InternalError whose detail carries the causing message. -/
theorem dispatch_error_mapping (msg emsg : String) (status : Nat) :
    (sequentialthinking (.requestError msg) =
      .httpError 503 ("Failed to connect to sequentialthinking service: " ++ msg)) ∧
    (server_memory_tool (.requestError msg) =
      .httpError 503 ("Failed to connect to server-memory service: " ++ msg)) ∧
    (sequentialthinking (.httpStatusError status emsg) =
      .httpError status ("Sequentialthinking service error: " ++ emsg)) ∧
    (server_memory_tool (.httpStatusError status emsg) =
      .httpError status ("server-memory service error: " ++ emsg)) ∧
    (sequentialthinking (.jsonDecodeError msg) =
      .httpError 500 ("Internal error: " ++ msg)) ∧
    (server_memory_tool (.jsonDecodeError msg) =
      .httpError 500 ("Internal error: " ++ msg)) :=
  ⟨rfl, rfl, rfl, rfl, rfl, rfl⟩

/-- Claim C8: verification is invalid without attempting key retrieval when
the configured domain or audience is absent, and fails immediately when the
obtained signing-key set is empty; in neither case is any token accepted,
whatever the per-key decode behaviour. -/
theorem verify_fail_closed (dom aud : Option String) (env : KeyFetchEnv)
    (st : CacheState) (decode : Json → DecodeOutcome) :
    (optTruthy dom = false ∨ optTruthy aud = false →
      verify_cloudflare_jwt dom aud env st decode = (false, st, false)) ∧
    (∀ kv, pyDictGetNone (get_cloudflare_public_keys dom env st).1 "keys" = .ok kv →
      kv.truthy = false →
      (verify_cloudflare_jwt dom aud env st decode).1 = false) := by
  constructor
  · intro h
    unfold verify_cloudflare_jwt
    rcases h with h | h <;> simp [h]
  · intro kv hkv htr
    unfold verify_cloudflare_jwt
    by_cases hd : optTruthy dom
    · by_cases ha : optTruthy aud
      · simp [hd, ha, verifyTryBody, hkv, htr]
      · simp [ha]
    · simp [hd]

/-- Witness for C8: with the domain unset nothing is retrieved and the
result is invalid; with an empty cached key set the result is invalid even
for a decode oracle that would accept every key. -/
theorem verify_fail_closed_witness :
    (verify_cloudflare_jwt none (some "aud-tag") ⟨true, .ok emptyKeys⟩ ⟨none⟩
      (fun _ => .ok (some "https://team")) = (false, ⟨none⟩, false)) ∧
    ((verify_cloudflare_jwt (some "team") (some "aud-tag") ⟨true, .ok emptyKeys⟩
      ⟨some emptyKeys⟩ (fun _ => .ok (some "https://team"))).1 = false) :=
  ⟨(verify_fail_closed none (some "aud-tag") ⟨true, .ok emptyKeys⟩ ⟨none⟩
      (fun _ => .ok (some "https://team"))).1 (Or.inl rfl),
   (verify_fail_closed (some "team") (some "aud-tag") ⟨true, .ok emptyKeys⟩
      ⟨some emptyKeys⟩ (fun _ => .ok (some "https://team"))).2 (.arr []) rfl rfl⟩

/-- Claim C9: the delegated (Strategy B) verifier fails fast with
ServerMisconfigured before any call when its base URL is unconfigured; a
200 response with a truthy validity flag yields a VerifiedIdentity carrying
the subject identifier; a 200 response with a falsy flag yields Forbidden
(403); a timeout yields GatewayTimeout (504); a connection failure yields
BadGateway (502). Modelled from the spec, sections 4.3 and 7, since the
verifier is absent from src/. -/
theorem strategy_b_contract (base : Option String) (resp : VerifierResponse)
    (uid em err : Option String) :
    (optTruthy base = false →
      verify_workers_jwt base resp = (.serverMisconfigured, false) ∧
      outcomeStatus .serverMisconfigured = 500) ∧
    (optTruthy base = true →
      (verify_workers_jwt base (.http 200 true uid em err) =
        (.verified ⟨uid.getD "", em⟩, true)) ∧
      (verify_workers_jwt base (.http 200 false uid em err) = (.forbidden err, true) ∧
        outcomeStatus (.forbidden err) = 403) ∧
      (verify_workers_jwt base .timeout = (.gatewayTimeout, true) ∧
        outcomeStatus .gatewayTimeout = 504) ∧
      (verify_workers_jwt base .connectionFailure = (.badGateway, true) ∧
        outcomeStatus .badGateway = 502)) := by
  constructor
  · intro h
    unfold verify_workers_jwt
    simp [h, outcomeStatus]
  · intro h
    unfold verify_workers_jwt
    simp [h, outcomeStatus]

/-- Witness for C9: unset base URL gives ServerMisconfigured with no call
made; with a configured base URL the response with valid true and userId u1
is accepted with identity u1. -/
theorem strategy_b_contract_witness :
    (verify_workers_jwt none .timeout = (.serverMisconfigured, false)) ∧
    (verify_workers_jwt (some "https://workers.example") (.http 200 true (some "u1") none none) =
      (.verified ⟨"u1", none⟩, true)) :=
  ⟨((strategy_b_contract none .timeout none none none).1 rfl).1,
   ((strategy_b_contract (some "https://workers.example") .timeout (some "u1") none none).2
      (by decide)).1⟩

/-- A well-formed certificate body for exercising the key cache. -/
def goodCerts : Json := .obj [("keys", .arr [.obj [("kid", .str "k1")]])]

/-- Claim C1 is false as stated: when the network call errors (domain
configured, DNS fine), the call returns the empty key set but POPULATES the
cache with it (src/auth.py line 55), so a later call in a healthy
environment returns the cached empty set instead of retrying the fetch. -/
theorem key_cache_counterexample :
    (get_cloudflare_public_keys (some "team.example") ⟨true, .requestError "connection refused"⟩
      ⟨none⟩ = (emptyKeys, ⟨some emptyKeys⟩)) ∧
    ((⟨some emptyKeys⟩ : CacheState).cf_public_keys ≠ none) ∧
    (get_cloudflare_public_keys (some "team.example") ⟨true, .ok goodCerts⟩
      ⟨some emptyKeys⟩ = (emptyKeys, ⟨some emptyKeys⟩)) :=
  ⟨rfl, by simp, rfl⟩

/-- Claim C1 amended: an unconfigured domain or a DNS failure returns the
empty key set and leaves the cache unpopulated (so a later call can retry
and populate it); but a fetch error (non-success status or network error)
returns the empty key set AND stores it in the cache, after which every
later call returns the cached empty set without retrying. -/
theorem key_cache_failure_policy (dom : Option String) (env : KeyFetchEnv)
    (st : CacheState) (body : Json) (msg : String) :
    (optTruthy dom = false →
      get_cloudflare_public_keys dom env st = (emptyKeys, st)) ∧
    (optTruthy dom = true → st.cf_public_keys = none → env.dnsOk = false →
      get_cloudflare_public_keys dom env st = (emptyKeys, st)) ∧
    (optTruthy dom = true → st.cf_public_keys = none → env.dnsOk = true →
      env.fetch = .ok body →
      get_cloudflare_public_keys dom env st = (body, ⟨some body⟩)) ∧
    (optTruthy dom = true → st.cf_public_keys = none → env.dnsOk = true →
      env.fetch = .requestError msg →
      get_cloudflare_public_keys dom env st = (emptyKeys, ⟨some emptyKeys⟩) ∧
      ∀ env2 : KeyFetchEnv,
        get_cloudflare_public_keys dom env2 ⟨some emptyKeys⟩ = (emptyKeys, ⟨some emptyKeys⟩)) := by
  obtain ⟨c⟩ := st
  refine ⟨?_, ?_, ?_, ?_⟩
  · intro h
    simp [get_cloudflare_public_keys, h]
  · intro h hc hd
    simp only at hc
    subst hc
    simp [get_cloudflare_public_keys, h, hd]
  · intro h hc hd hf
    simp only at hc
    subst hc
    simp [get_cloudflare_public_keys, h, hd, hf]
  · intro h hc hd hf
    simp only at hc
    subst hc
    refine ⟨by simp [get_cloudflare_public_keys, h, hd, hf], ?_⟩
    intro env2
    simp [get_cloudflare_public_keys, h]

/-- Witness for the amended C1: a DNS failure leaves the cache empty and a
subsequent healthy call populates it; a fetch error instead caches the
empty key set. -/
theorem key_cache_failure_policy_witness :
    (get_cloudflare_public_keys (some "team.example") ⟨false, .ok goodCerts⟩ ⟨none⟩ =
      (emptyKeys, ⟨none⟩)) ∧
    (get_cloudflare_public_keys (some "team.example") ⟨true, .ok goodCerts⟩ ⟨none⟩ =
      (goodCerts, ⟨some goodCerts⟩)) ∧
    (get_cloudflare_public_keys (some "team.example") ⟨true, .requestError "refused"⟩ ⟨none⟩ =
      (emptyKeys, ⟨some emptyKeys⟩)) :=
  ⟨(key_cache_failure_policy (some "team.example") ⟨false, .ok goodCerts⟩ ⟨none⟩
      goodCerts "refused").2.1 rfl rfl rfl,
   (key_cache_failure_policy (some "team.example") ⟨true, .ok goodCerts⟩ ⟨none⟩
      goodCerts "refused").2.2.1 rfl rfl rfl rfl,
   ((key_cache_failure_policy (some "team.example") ⟨true, .requestError "refused"⟩ ⟨none⟩
      goodCerts "refused").2.2.2 rfl rfl rfl rfl).1⟩

/-- A cache state already populated with the given key list, as after a
successful certificate fetch. -/
def cachedKeySet (ks : List Json) : CacheState := ⟨some (.obj [("keys", .arr ks)])⟩

/-- A key satisfies signature, expiry, audience and issuer verification for
the token under consideration exactly when the decode oracle succeeds on it
with the expected issuer claim. -/
def keyAccepts (decode : Json → DecodeOutcome) (expectedIss : String) (k : Json) : Bool :=
  match decode k with
  | .ok iss => iss = some expectedIss
  | _ => false

/-- When no key raises outside `jwt.InvalidTokenError`, the key scan returns
whether some key is accepted. -/
theorem scanKeys_eq_any (decode : Json → DecodeOutcome) (iss : String) (ks : List Json)
    (h : ∀ k ∈ ks, ∀ m, decode k ≠ .otherError m) :
    scanKeys decode iss ks = .ok (ks.any (keyAccepts decode iss)) := by
  induction ks with
  | nil => rfl
  | cons k rest ih =>
    have hk := h k (by simp)
    have hrest : ∀ k2 ∈ rest, ∀ m, decode k2 ≠ .otherError m :=
      fun k2 hm => h k2 (by simp [hm])
    unfold scanKeys
    cases hd : decode k with
    | ok i =>
      by_cases hi : i = some iss
      · simp [keyAccepts, hd, hi]
      · simp [keyAccepts, hd, hi, ih hrest]
    | invalidToken m => simp [keyAccepts, hd, ih hrest]
    | otherError m => exact absurd hd (hk m)

/-- With a populated cache the verifier reduces to the key scan over the
cached list. -/
theorem verify_cached_eq (dom aud : String) (hdom : dom ≠ "") (haud : aud ≠ "")
    (env : KeyFetchEnv) (ks : List Json) (hne : ks ≠ []) (decode : Json → DecodeOutcome) :
    (verify_cloudflare_jwt (some dom) (some aud) env (cachedKeySet ks) decode).1 =
      match scanKeys decode ("https://" ++ dom) ks with
      | .ok b => b
      | .error _ => false := by
  unfold verify_cloudflare_jwt verifyTryBody get_cloudflare_public_keys cachedKeySet
  have he : ks.isEmpty = false := by simp [hne]
  simp [optTruthy, hdom, haud, pyDictGetNone, memLookup, Json.truthy, he, pyDictGet, pyIterate]
  cases scanKeys decode ("https://" ++ dom) ks <;> simp

/-- Claim C2 amended: over a non-empty signing-key set in which every
per-key failure raises `jwt.InvalidTokenError`, the token is valid iff some
key satisfies signature, expiry, audience and issuer, independently of key
order; however a per-key error outside `jwt.InvalidTokenError` (for
example malformed key material rejected by `RSAAlgorithm.from_jwk`) escapes
the inner handler and aborts the scan: if the first key raises such an
error the verifier returns invalid without trying the remaining keys. -/
theorem verify_key_scan_amended (dom aud : String) (env : KeyFetchEnv)
    (ks : List Json) (decode : Json → DecodeOutcome)
    (hdom : dom ≠ "") (haud : aud ≠ "") (hne : ks ≠ []) :
    ((∀ k ∈ ks, ∀ m, decode k ≠ .otherError m) →
      ((verify_cloudflare_jwt (some dom) (some aud) env (cachedKeySet ks) decode).1 = true ↔
        ∃ k ∈ ks, keyAccepts decode ("https://" ++ dom) k = true) ∧
      (∀ ks2 : List Json, ks.Perm ks2 →
        (verify_cloudflare_jwt (some dom) (some aud) env (cachedKeySet ks) decode).1 =
        (verify_cloudflare_jwt (some dom) (some aud) env (cachedKeySet ks2) decode).1)) ∧
    (∀ k1 rest m, ks = k1 :: rest → decode k1 = .otherError m →
      (verify_cloudflare_jwt (some dom) (some aud) env (cachedKeySet ks) decode).1 = false) := by
  constructor
  · intro hno
    constructor
    · rw [verify_cached_eq dom aud hdom haud env ks hne decode,
        scanKeys_eq_any decode ("https://" ++ dom) ks hno]
      simp [List.any_eq_true]
    · intro ks2 hperm
      have hne2 : ks2 ≠ [] := by
        intro h2
        apply hne
        have := hperm.length_eq
        rw [h2] at this
        simpa using List.length_eq_zero.1 this
      have hno2 : ∀ k ∈ ks2, ∀ m, decode k ≠ .otherError m :=
        fun k hk => hno k (hperm.mem_iff.2 hk)
      rw [verify_cached_eq dom aud hdom haud env ks hne decode,
        verify_cached_eq dom aud hdom haud env ks2 hne2 decode,
        scanKeys_eq_any decode ("https://" ++ dom) ks hno,
        scanKeys_eq_any decode ("https://" ++ dom) ks2 hno2]
      have hany : ks.any (keyAccepts decode ("https://" ++ dom)) =
          ks2.any (keyAccepts decode ("https://" ++ dom)) := by
        by_cases h : ks.any (keyAccepts decode ("https://" ++ dom)) = true
        · rw [h]
          symm
          rw [List.any_eq_true] at h ⊢
          obtain ⟨x, hx, hfx⟩ := h
          exact ⟨x, hperm.mem_iff.1 hx, hfx⟩
        · rw [Bool.not_eq_true] at h
          rw [h]
          symm
          rw [Bool.eq_false_iff]
          intro h2
          rw [List.any_eq_true] at h2
          obtain ⟨x, hx, hfx⟩ := h2
          rw [Bool.eq_false_iff] at h
          apply h
          rw [List.any_eq_true]
          exact ⟨x, hperm.mem_iff.2 hx, hfx⟩
      rw [hany]
  · intro k1 rest m hks hd
    subst hks
    rw [verify_cached_eq dom aud hdom haud env (k1 :: rest) hne decode]
    unfold scanKeys
    simp [hd]

/-- Keys for the C2 counterexample: the decode oracle accepts the good key
outright and raises a non-InvalidTokenError exception on every other key. -/
def goodKey : Json := .obj [("kid", .str "good")]

/-- A key whose material the crypto library rejects outside the
InvalidTokenError hierarchy. -/
def badKey : Json := .obj [("kid", .str "bad")]

/-- Decode oracle for the C2 counterexample. -/
def cexDecode : Json → DecodeOutcome := fun k =>
  match k with
  | .obj [("kid", .str "good")] => .ok (some "https://team.example")
  | _ => .otherError "InvalidKeyError raised by RSAAlgorithm.from_jwk"

/-- Claim C2 is false as stated: with the key set [badKey, goodKey] the good
key satisfies signature, expiry, audience and issuer, yet verification
returns false, because the per-key error on badKey is not swallowed by the
inner handler; with the reversed order [goodKey, badKey] the same token
verifies, so the result also depends on key order. -/
theorem verify_key_scan_counterexample :
    keyAccepts cexDecode "https://team.example" goodKey = true ∧
    (verify_cloudflare_jwt (some "team.example") (some "aud-tag") ⟨true, .ok emptyKeys⟩
      (cachedKeySet [badKey, goodKey]) cexDecode).1 = false ∧
    (verify_cloudflare_jwt (some "team.example") (some "aud-tag") ⟨true, .ok emptyKeys⟩
      (cachedKeySet [goodKey, badKey]) cexDecode).1 = true :=
  ⟨rfl, rfl, rfl⟩

/-- Decode oracle for the amended C2 witness: every key except the good one
fails with an InvalidTokenError, which the inner handler swallows. -/
def witDecode : Json → DecodeOutcome := fun k =>
  match k with
  | .obj [("kid", .str "good")] => .ok (some "https://team.example")
  | _ => .invalidToken "signature mismatch"

/-- Witness for the amended C2: with a 3-key set where only the last key
matches and the others fail with InvalidTokenError, the validity result is
exactly the existence of an accepting key, and it is unchanged by a
permutation of the set. -/
theorem verify_key_scan_amended_witness :
    ((verify_cloudflare_jwt (some "team.example") (some "aud-tag") ⟨true, .ok emptyKeys⟩
      (cachedKeySet [.str "k1", .str "k2", goodKey]) witDecode).1 = true ↔
      ∃ k ∈ [Json.str "k1", Json.str "k2", goodKey],
        keyAccepts witDecode "https://team.example" k = true) ∧
    (verify_cloudflare_jwt (some "team.example") (some "aud-tag") ⟨true, .ok emptyKeys⟩
      (cachedKeySet [.str "k1", .str "k2", goodKey]) witDecode).1 =
    (verify_cloudflare_jwt (some "team.example") (some "aud-tag") ⟨true, .ok emptyKeys⟩
      (cachedKeySet [goodKey, .str "k1", .str "k2"]) witDecode).1 :=
  ⟨((verify_key_scan_amended "team.example" "aud-tag" ⟨true, .ok emptyKeys⟩
      [.str "k1", .str "k2", goodKey] witDecode (by decide) (by decide) (by simp)).1
      (by intro k hk m; simp at hk; rcases hk with h | h | h <;> subst h <;>
        simp [witDecode, goodKey])).1,
   ((verify_key_scan_amended "team.example" "aud-tag" ⟨true, .ok emptyKeys⟩
      [.str "k1", .str "k2", goodKey] witDecode (by decide) (by decide) (by simp)).1
      (by intro k hk m; simp at hk; rcases hk with h | h | h <;> subst h <;>
        simp [witDecode, goodKey])).2 [goodKey, .str "k1", .str "k2"]
      (@List.perm_append_comm Json [.str "k1", .str "k2"] [goodKey])⟩

/-- A key that `memLookup` misses is matched by no member. -/
theorem memLookup_any_false (key : String) (members : List (String × Json))
    (h : memLookup key members = none) :
    members.any (fun m => decide (m.1 = key)) = false := by
  induction members with
  | nil => rfl
  | cons m rest ih =>
    obtain ⟨k, v⟩ := m
    unfold memLookup at h
    by_cases hk : k = key
    · simp [hk] at h
    · simp only [hk, if_false] at h
      simp [hk, ih h]

/-- A key that `memLookup` finds is matched by some member. -/
theorem memLookup_any_true (key : String) (members : List (String × Json)) (v : Json)
    (h : memLookup key members = some v) :
    members.any (fun m => decide (m.1 = key)) = true := by
  induction members with
  | nil => simp [memLookup] at h
  | cons m rest ih =>
    obtain ⟨k, w⟩ := m
    unfold memLookup at h
    by_cases hk : k = key
    · simp [hk]
    · simp only [hk, if_false] at h
      simp [hk, ih h]

/-- The JSON body used in the C5 counterexample: its content field is a
truthy value that supports neither len() nor subscripting. -/
def malformedBody : Json := .obj [("content", .num 1)]

/-- Claim C5 is false as stated: on the backend body with "content": 1 —
which lacks the expected shape — both dispatchers raise an HTTPException
500 (the TypeError from len() lands in the catch-all handler) instead of
returning the full raw response serialized as the result text. -/
theorem dispatch_malformed_counterexample :
    sequentialthinking (.success malformedBody) =
      .httpError 500 "Internal error: TypeError: object has no len()" ∧
    server_memory_tool (.success malformedBody) =
      .httpError 500 "Internal error: TypeError: object has no len()" ∧
    sequentialthinking (.success malformedBody) ≠ .ok (.str (Json.dumps malformedBody)) :=
  ⟨rfl, rfl, fun h => DispatchResult.noConfusion
    ((rfl : sequentialthinking (.success malformedBody) =
      .httpError 500 "Internal error: TypeError: object has no len()").symm.trans h)⟩

/-- Claim C5 amended: when the content field holds a non-empty list whose
first element is an object, the dispatchers return that element's text
value (the empty string when absent); when the content key is absent or its
value is falsy, they return the full raw response serialized as a non-empty
result text; but a truthy content value that does not support len() makes
the handler raise an InternalError 500 instead of returning the serialized
fallback. -/
theorem dispatch_extract_amended (members : List (String × Json))
    (fs : List (String × Json)) (rest : List Json) (v : Json) :
    (memLookup "content" members = some (.arr (.obj fs :: rest)) →
      sequentialthinking (.success (.obj members)) =
        .ok ((memLookup "text" fs).getD (.str "")) ∧
      server_memory_tool (.success (.obj members)) =
        .ok ((memLookup "text" fs).getD (.str ""))) ∧
    (memLookup "content" members = none →
      sequentialthinking (.success (.obj members)) = .ok (.str (Json.dumps (.obj members))) ∧
      server_memory_tool (.success (.obj members)) = .ok (.str (Json.dumps (.obj members))) ∧
      Json.dumps (.obj members) ≠ "") ∧
    (memLookup "content" members = some v → v.truthy = false →
      sequentialthinking (.success (.obj members)) = .ok (.str (Json.dumps (.obj members)))) ∧
    (memLookup "content" members = some v → v.truthy = true →
      (∀ n, v.pyLen ≠ .ok n) →
      ∃ e, sequentialthinking (.success (.obj members)) = .httpError 500 e) := by
  refine ⟨?_, ?_, ?_, ?_⟩
  · intro h
    have ha := memLookup_any_true "content" members _ h
    constructor <;>
      simp [sequentialthinking, server_memory_tool, extract_result, pyContains, ha,
        pyGetItemStr, h, Json.truthy, Json.pyLen, pySubscriptZero, pyDictGet]
  · intro h
    have ha := memLookup_any_false "content" members h
    refine ⟨?_, ?_, dumps_obj_ne_empty members⟩ <;>
      simp [sequentialthinking, server_memory_tool, extract_result, pyContains, ha]
  · intro h htr
    have ha := memLookup_any_true "content" members v h
    simp [sequentialthinking, extract_result, pyContains, ha, pyGetItemStr, h, htr]
  · intro h htr hlen
    have ha := memLookup_any_true "content" members v h
    cases he : v.pyLen with
    | ok n => exact absurd he (hlen n)
    | error e =>
      exact ⟨"Internal error: " ++ e,
        by simp [sequentialthinking, extract_result, pyContains, ha, pyGetItemStr, h, htr, he]⟩

/-- Witness for the amended C5: a well-shaped body yields the text of the
first content element; a body without a content key yields the serialized
fallback. -/
theorem dispatch_extract_amended_witness :
    sequentialthinking (.success (.obj [("content",
      .arr [.obj [("type", .str "text"), ("text", .str "ok")]])])) = .ok (.str "ok") ∧
    sequentialthinking (.success (.obj [("status", .str "done")])) =
      .ok (.str (Json.dumps (.obj [("status", .str "done")]))) :=
  ⟨((dispatch_extract_amended [("content", .arr [.obj [("type", .str "text"), ("text", .str "ok")]])]
      [("type", .str "text"), ("text", .str "ok")] [] .null).1 rfl).1,
   ((dispatch_extract_amended [("status", .str "done")] [] [] .null).2.1 rfl).1⟩

/-- Following the words of the spec for claim C7: a backend contributes to
the aggregate exactly when it responded with a well-formed tools list, that
is, a body whose "tools" field is a list; every failing or malformed
backend contributes nothing. This is the spec-side definition to compare
`list_tools` against. -/
def specWellFormedTools (b : BackendOutcome) : Option (List Json) :=
  match b with
  | .success body =>
    match body.lookup "tools" with
    | some (.arr l) => some l
    | _ => none
  | _ => none

/-- Following the words of the spec for claim C7: the aggregate result is
exactly the concatenation of the tools contributed by the backends that
responded with a well-formed tools list. -/
def specAggregate (backends : List BackendOutcome) : List Json :=
  (backends.map (fun b => (specWellFormedTools b).getD [])).flatten

/-- A backend whose response body carries "tools": "ab" (a string, not a
list). -/
def strToolsBackend : BackendOutcome := .success (.obj [("tools", .str "ab")])

/-- A healthy backend whose response body carries a one-element tools
list. -/
def goodToolsBackend : BackendOutcome := .success (.obj
  [("tools", .arr [.obj [("name", .str "t1")]])])

/-- Claim C7 is false as stated: a backend answering with a malformed
response whose "tools" field is the string "ab" is not omitted — Python
`list.extend` iterates the string, so the aggregate gains the characters
"a" and "b" in addition to the well-formed backend's tools, and differs
from the tools contributed by the well-formed backends alone. -/
theorem list_tools_counterexample :
    specAggregate [strToolsBackend, goodToolsBackend] = [.obj [("name", .str "t1")]] ∧
    list_tools [strToolsBackend, goodToolsBackend] =
      [.str "a", .str "b", .obj [("name", .str "t1")]] ∧
    list_tools [strToolsBackend, goodToolsBackend] ≠
      specAggregate [strToolsBackend, goodToolsBackend] := by
  refine ⟨rfl, rfl, ?_⟩
  intro h
  have hl := congrArg List.length h
  simp [list_tools, specAggregate, strToolsBackend, goodToolsBackend,
    listToolsStep, specWellFormedTools, pyContains, pyGetItemStr, pyIterate,
    Json.lookup, memLookup] at hl

/-- One loop iteration leaves the accumulator unchanged for every failing
backend and for every success body whose "tools" value is not a string or
an object, and otherwise appends exactly the well-formed list. -/
theorem listToolsStep_eq (acc : List Json) (b : BackendOutcome)
    (hb : ∀ body, b = .success body →
      (∀ s, body.lookup "tools" ≠ some (.str s)) ∧
      (∀ ms, body.lookup "tools" ≠ some (.obj ms))) :
    listToolsStep acc b = acc ++ (specWellFormedTools b).getD [] := by
  cases b with
  | success body =>
    have h := hb body rfl
    cases body with
    | obj members =>
      cases hm : memLookup "tools" members with
      | none =>
        have ha := memLookup_any_false "tools" members hm
        simp [listToolsStep, specWellFormedTools, Json.lookup, pyContains, ha, hm]
      | some v =>
        have ha := memLookup_any_true "tools" members v hm
        cases v with
        | arr l =>
          simp [listToolsStep, specWellFormedTools, Json.lookup, pyContains, ha,
            pyGetItemStr, hm, pyIterate]
        | str s => exact absurd (by simp [Json.lookup, hm]) (h.1 s)
        | obj ms => exact absurd (by simp [Json.lookup, hm]) (h.2 ms)
        | null =>
          simp [listToolsStep, specWellFormedTools, Json.lookup, pyContains, ha,
            pyGetItemStr, hm, pyIterate]
        | bool c =>
          simp [listToolsStep, specWellFormedTools, Json.lookup, pyContains, ha,
            pyGetItemStr, hm, pyIterate]
        | num n =>
          simp [listToolsStep, specWellFormedTools, Json.lookup, pyContains, ha,
            pyGetItemStr, hm, pyIterate]
    | null => simp [listToolsStep, specWellFormedTools, Json.lookup, pyContains]
    | bool c => simp [listToolsStep, specWellFormedTools, Json.lookup, pyContains]
    | num n => simp [listToolsStep, specWellFormedTools, Json.lookup, pyContains]
    | str s =>
      simp only [listToolsStep, specWellFormedTools, Json.lookup, pyContains]
      cases decide ("tools".data <:+: s.data) <;> simp [pyGetItemStr]
    | arr l =>
      simp only [listToolsStep, specWellFormedTools, Json.lookup, pyContains]
      cases l.any (fun x => match x with | .str s => decide (s = "tools") | _ => false) <;>
        simp [pyGetItemStr]
  | requestError m => simp [listToolsStep, specWellFormedTools]
  | httpStatusError s m => simp [listToolsStep, specWellFormedTools]
  | otherError m => simp [listToolsStep, specWellFormedTools]

/-- The fold underlying `list_tools` appends the spec-side aggregate to any
accumulator, under the same tameness condition on the tools values. -/
theorem list_tools_foldl_eq (backends : List BackendOutcome)
    (hw : ∀ body, BackendOutcome.success body ∈ backends →
      (∀ s, body.lookup "tools" ≠ some (.str s)) ∧
      (∀ ms, body.lookup "tools" ≠ some (.obj ms))) :
    ∀ acc, backends.foldl listToolsStep acc = acc ++ specAggregate backends := by
  induction backends with
  | nil => intro acc; simp [specAggregate]
  | cons b rest ih =>
    intro acc
    have hb : ∀ body, b = .success body →
        (∀ s, body.lookup "tools" ≠ some (.str s)) ∧
        (∀ ms, body.lookup "tools" ≠ some (.obj ms)) :=
      fun body hbody => hw body (by rw [← hbody]; simp)
    have hrest : ∀ body, BackendOutcome.success body ∈ rest →
        (∀ s, body.lookup "tools" ≠ some (.str s)) ∧
        (∀ ms, body.lookup "tools" ≠ some (.obj ms)) :=
      fun body hbody => hw body (by simp [hbody])
    rw [List.foldl_cons, listToolsStep_eq acc b hb, ih hrest, List.append_assoc]
    simp [specAggregate]

/-- Claim C7 amended: no backend failure aborts the aggregation or
propagates an error, and whenever no responding body carries a "tools"
value that is a string or an object, the aggregate is exactly the
concatenation, in registry order, of the tools lists of the backends that
responded with a well-formed tools list — failing backends, bodies without
a "tools" key, and non-iterable "tools" values are omitted. (A string or
object "tools" value would instead contribute its characters or keys.) -/
theorem list_tools_amended (backends : List BackendOutcome)
    (hw : ∀ body, BackendOutcome.success body ∈ backends →
      (∀ s, body.lookup "tools" ≠ some (.str s)) ∧
      (∀ ms, body.lookup "tools" ≠ some (.obj ms))) :
    list_tools backends = specAggregate backends := by
  unfold list_tools
  rw [list_tools_foldl_eq backends hw []]
  simp

/-- Witness for the amended C7: one healthy backend, one unreachable
backend and one backend answering without a tools key aggregate to exactly
the healthy backend's tools. -/
theorem list_tools_amended_witness :
    list_tools [goodToolsBackend, .requestError "unreachable",
      .success (.obj [("status", .str "ok")])] =
    specAggregate [goodToolsBackend, .requestError "unreachable",
      .success (.obj [("status", .str "ok")])] ∧
    specAggregate [goodToolsBackend, .requestError "unreachable",
      .success (.obj [("status", .str "ok")])] = [.obj [("name", .str "t1")]] :=
  ⟨list_tools_amended [goodToolsBackend, .requestError "unreachable",
      .success (.obj [("status", .str "ok")])]
    (by
      intro body hbody
      simp [goodToolsBackend] at hbody
      rcases hbody with h | h <;> subst h <;>
        constructor <;> intro x <;> simp [Json.lookup, memLookup]),
   rfl⟩

end ChinngsFastApi
